import Mathlib

/-!
Verification of the aggregation and reporting pipeline of `r6_analyzer.py`.

Numbers carried by the JSON records are modelled as rationals (`ℚ`).
A pandas `DataFrame` is modelled as a `List` of typed rows; the distinction
between a frame that has the schema columns and the literal empty
`pd.DataFrame()` (no columns at all, on which column access raises
`KeyError`) is modelled by the `Frame` type below, since the report
renderer behaviour depends on it.
-/

namespace R6

/-- Python whitespace, as far as `str.strip()` is concerned (the characters
that can occur in the data at hand). -/
def pyIsSpace (c : Char) : Bool :=
  c == ' ' || c == '\t' || c == '\n' || c == '\r'

/-- Model of Python `str.strip()`: drop leading and trailing whitespace. -/
def pyStrip (s : String) : String :=
  ⟨((s.data.dropWhile pyIsSpace).reverse.dropWhile pyIsSpace).reverse⟩

/-- Model of Python `str.lower()` (ASCII case folding suffices here). -/
def pyLower (s : String) : String :=
  ⟨s.data.map Char.toLower⟩

/-- A stat entry `{value, displayName, metadata}`; only `value` is read by the
extractors, and a JSON `null` (or a missing `"value"` key, or an empty entry
dict, which is falsy in Python) is `none`. -/
structure StatEntry where
  value : Option ℚ
deriving DecidableEq, Repr

/-- The `stats` mapping of a record: association list from stat key to entry. -/
abbrev Stats : Type := List (String × StatEntry)

/-- Python `stats.get(key)` on the stats dict. -/
def lookupStat (s : Stats) (k : String) : Option StatEntry :=
  (s.find? (fun p => p.1 = k)).map (fun p => p.2)

/-- The `get_stat` closure shared verbatim by all three extractors:
`entry.get("value") if (entry and entry.get("value") is not None) else 0`. -/
def getStat (s : Stats) (k : String) : ℚ :=
  match lookupStat s k with
  | none => 0
  | some e => e.value.getD 0

/-- The stat key is absent from the stats mapping of the record, or present with a
null value. -/
def absentOrNull (s : Stats) (k : String) : Prop :=
  lookupStat s k = none ∨ ∃ e, lookupStat s k = some e ∧ e.value = none

/-- A typed segment of `overview.json` (only `type` and `stats` are read). -/
structure Segment where
  type : String
  stats : Stats

/-- The `overview.json` structure: `{"segments": [...]}`. -/
structure OverviewJson where
  segments : List Segment

/-- The first segment with `type == "overview"` (first match wins). -/
def findOverviewSegment (o : OverviewJson) : Option Segment :=
  o.segments.find? (fun seg => seg.type = "overview")

/-- One row of the per-participant overview table produced by
`parse_overview_to_df`. -/
structure OverviewRow where
  player : String
  matchesPlayed : ℚ
  matchesWon : ℚ
  matchesLost : ℚ
  winPct : ℚ
  kills : ℚ
  deaths : ℚ
  kdRatio : ℚ
deriving DecidableEq, Repr

/-- The one overview row built from the overview stats of the overview segment: every
indicator — `matchesLost` included — is read from the stored stats through
`get_stat`. -/
def overviewRowOf (player : String) (s : Stats) : OverviewRow :=
  { player := player
    matchesPlayed := getStat s "matchesPlayed"
    matchesWon := getStat s "matchesWon"
    matchesLost := getStat s "matchesLost"
    winPct := getStat s "winPercentage"
    kills := getStat s "kills"
    deaths := getStat s "deaths"
    kdRatio := getStat s "kdRatio" }

/-- Source `parse_overview_to_df`: locate the overview segment (absence yields an
empty frame) and read the seven indicators through `get_stat`. -/
def parse_overview_to_df (o : OverviewJson) (player : String) : List OverviewRow :=
  match findOverviewSegment o with
  | none => []
  | some seg => [overviewRowOf player seg.stats]

/-- One raw entry of `maps.json` (the fields the extractor reads):
`metadata.mapName`, `attributes.map`, `stats`. -/
structure MapEntry where
  metadataMapName : Option String
  attributesMap : Option String
  stats : Stats

/-- One row of the per-participant map table. -/
structure MapRow where
  player : String
  mapName : String
  matchesPlayed : ℚ
  matchesWon : ℚ
  winPct : ℚ
  kills : ℚ
  deaths : ℚ
  kdRatio : ℚ
deriving DecidableEq, Repr

/-- Python `metadata.get("mapName", entry.get("attributes", ...).get("map", "Unknown"))`. -/
def mapNameOf (e : MapEntry) : String :=
  e.metadataMapName.getD (e.attributesMap.getD "Unknown")

/-- The row built for one `maps.json` entry. -/
def parseMapEntry (e : MapEntry) (player : String) : MapRow :=
  { player := player
    mapName := mapNameOf e
    matchesPlayed := getStat e.stats "matchesPlayed"
    matchesWon := getStat e.stats "matchesWon"
    winPct := getStat e.stats "winPercentage"
    kills := getStat e.stats "kills"
    deaths := getStat e.stats "deaths"
    kdRatio := getStat e.stats "kdRatio" }

/-- Source `parse_maps_to_df`: one row per entry, no filtering. -/
def parse_maps_to_df (ms : List MapEntry) (player : String) : List MapRow :=
  ms.map (fun e => parseMapEntry e player)

/-- One raw entry of `operators.json` (the fields the extractor reads). -/
structure OpEntry where
  metadataOperatorName : Option String
  attributesOperator : Option String
  attributesSide : Option String
  stats : Stats

/-- Python `metadata.get("operatorName", attributes.get("operator", "")).strip()`. -/
def opNameOf (e : OpEntry) : String :=
  pyStrip (e.metadataOperatorName.getD (e.attributesOperator.getD ""))

/-- Python `attributes.get("side", "all")`. -/
def sideOf (e : OpEntry) : String :=
  e.attributesSide.getD "all"

/-- One row of the per-participant operator table. -/
structure OpRow where
  player : String
  operatorName : String
  side : String
  matchesPlayed : ℚ
  matchesWon : ℚ
  winPct : ℚ
  kills : ℚ
  deaths : ℚ
  kdRatio : ℚ
deriving DecidableEq, Repr

/-- The unknown-name condition of the extraction filter:
`not op_name or op_name.lower() == "unknown"`. -/
def badName (s : String) : Prop :=
  s = "" ∨ pyLower s = "unknown"

instance (s : String) : Decidable (badName s) :=
  inferInstanceAs (Decidable (_ ∨ _))

/-- The operator row built for one `operators.json` entry. -/
def opRowOf (e : OpEntry) (player : String) : OpRow :=
  { player := player
    operatorName := opNameOf e
    side := sideOf e
    matchesPlayed := getStat e.stats "matchesPlayed"
    matchesWon := getStat e.stats "matchesWon"
    winPct := getStat e.stats "winPercentage"
    kills := getStat e.stats "kills"
    deaths := getStat e.stats "deaths"
    kdRatio := getStat e.stats "kdRatio" }

/-- Source `parse_operators_to_df`: one row per entry, dropping every entry whose
(stripped) name is empty or case-insensitively `"unknown"`. -/
def parse_operators_to_df (os : List OpEntry) (player : String) : List OpRow :=
  os.filterMap (fun e =>
    if badName (opNameOf e) then none else some (opRowOf e player))

/-! ### Aggregation (section 7.4 of the source `main`) -/

/-- Sum of a numeric column over the rows of a frame. -/
def sumBy (f : α → ℚ) (l : List α) : ℚ :=
  (l.map f).sum

/-- The zero-guarded win-percentage formula used after every aggregation:
`matchesWon / matchesPlayed * 100 if matchesPlayed > 0 else 0`. -/
def winPctOf (played won : ℚ) : ℚ :=
  if 0 < played then won / played * 100 else 0

/-- The zero-guarded K/D formula used after every aggregation:
`kills / deaths if deaths > 0 else 0`. -/
def kdOf (kills deaths : ℚ) : ℚ :=
  if 0 < deaths then kills / deaths else 0

/-- Python `kills / matchesPlayed.replace(0, pd.NA)`: `none` models the NA the code
leaves when `matchesPlayed` is exactly 0. -/
def kpmOf (kills played : ℚ) : Option ℚ :=
  if played = 0 then none else some (kills / played)

/-- The distinct group keys of a frame, in order of first appearance
(`groupby` key set; the source never depends on the key order). -/
def keysOf (key : α → κ) [DecidableEq κ] (rows : List α) : List κ :=
  (rows.map key).dedup

/-- The rows of one group: all rows carrying the given key. -/
def groupOn (key : α → κ) [DecidableEq κ] (rows : List α) (k : κ) : List α :=
  rows.filter (fun r => decide (key r = k))

/-- One row of the team map aggregate `maps_df_agg`. -/
structure MapAggRow where
  mapName : String
  matchesPlayed : ℚ
  matchesWon : ℚ
  kills : ℚ
  deaths : ℚ
  matchesLost : ℚ
  winPct : ℚ
  kdRatio : ℚ
deriving DecidableEq, Repr

/-- The aggregate row for one map group: the four counts are summed over the
group and `matchesLost`, `winPct`, `kdRatio` are derived from the sums. -/
def mapAggRowOf (rows : List MapRow) (k : String) : MapAggRow :=
  let g := groupOn MapRow.mapName rows k
  let p := sumBy MapRow.matchesPlayed g
  let w := sumBy MapRow.matchesWon g
  let ki := sumBy MapRow.kills g
  let d := sumBy MapRow.deaths g
  { mapName := k
    matchesPlayed := p
    matchesWon := w
    kills := ki
    deaths := d
    matchesLost := p - w
    winPct := winPctOf p w
    kdRatio := kdOf ki d }

/-- Source `maps_df.groupby("mapName")` summing the four counts, then deriving
`matchesLost`, `winPct`, `kdRatio` (source lines 664–680). -/
def maps_df_agg (rows : List MapRow) : List MapAggRow :=
  (keysOf MapRow.mapName rows).map (mapAggRowOf rows)

/-- One row of the team operator aggregate `ops_df_agg_team`. -/
structure OpAggRow where
  operatorName : String
  side : String
  matchesPlayed : ℚ
  matchesWon : ℚ
  kills : ℚ
  deaths : ℚ
  matchesLost : ℚ
  winPct : ℚ
  kdRatio : ℚ
  killsPerMatch : Option ℚ
deriving DecidableEq, Repr

/-- The group key of the team operator aggregate. -/
def opTeamKey (r : OpRow) : String × String :=
  (r.operatorName, r.side)

/-- The aggregate row for one `(operatorName, side)` group. -/
def opAggRowOf (rows : List OpRow) (k : String × String) : OpAggRow :=
  let g := groupOn opTeamKey rows k
  let p := sumBy OpRow.matchesPlayed g
  let w := sumBy OpRow.matchesWon g
  let ki := sumBy OpRow.kills g
  let d := sumBy OpRow.deaths g
  { operatorName := k.1
    side := k.2
    matchesPlayed := p
    matchesWon := w
    kills := ki
    deaths := d
    matchesLost := p - w
    winPct := winPctOf p w
    kdRatio := kdOf ki d
    killsPerMatch := kpmOf ki p }

/-- Source `ops_df.groupby(["operatorName", "side"])` summing the four counts, then
deriving `matchesLost`, `winPct`, `kdRatio`, `killsPerMatch`
(source lines 687–704). -/
def ops_df_agg_team (rows : List OpRow) : List OpAggRow :=
  (keysOf opTeamKey rows).map (opAggRowOf rows)

/-- One row of the per-player operator aggregate `ops_df_agg_player`. -/
structure OpPlayerAggRow where
  player : String
  operatorName : String
  side : String
  matchesPlayed : ℚ
  matchesWon : ℚ
  kills : ℚ
  deaths : ℚ
  matchesLost : ℚ
  winPct : ℚ
  kdRatio : ℚ
  killsPerMatch : Option ℚ
deriving DecidableEq, Repr

/-- The group key of the per-player operator aggregate. -/
def opPlayerKey (r : OpRow) : String × String × String :=
  (r.player, r.operatorName, r.side)

/-- The aggregate row for one `(player, operatorName, side)` group. -/
def opPlayerAggRowOf (rows : List OpRow) (k : String × String × String) :
    OpPlayerAggRow :=
  let g := groupOn opPlayerKey rows k
  let p := sumBy OpRow.matchesPlayed g
  let w := sumBy OpRow.matchesWon g
  let ki := sumBy OpRow.kills g
  let d := sumBy OpRow.deaths g
  { player := k.1
    operatorName := k.2.1
    side := k.2.2
    matchesPlayed := p
    matchesWon := w
    kills := ki
    deaths := d
    matchesLost := p - w
    winPct := winPctOf p w
    kdRatio := kdOf ki d
    killsPerMatch := kpmOf ki p }

/-- Source `ops_df.groupby(["player", "operatorName", "side"])` summing the four
counts, then deriving the same four columns (source lines 707–724). -/
def ops_df_agg_player (rows : List OpRow) : List OpPlayerAggRow :=
  (keysOf opPlayerKey rows).map (opPlayerAggRowOf rows)

/-- The team overview aggregate `equipe_agg` (source lines 649–658): the five
counts — `matchesLost` among them — are summed over the per-player rows, and
`winPct` / `kdRatio` are recomputed from the summed counts. -/
def equipe_agg (rows : List OverviewRow) : OverviewRow :=
  let p := sumBy OverviewRow.matchesPlayed rows
  let w := sumBy OverviewRow.matchesWon rows
  let l := sumBy OverviewRow.matchesLost rows
  let ki := sumBy OverviewRow.kills rows
  let d := sumBy OverviewRow.deaths rows
  { player := "Equipe"
    matchesPlayed := p
    matchesWon := w
    matchesLost := l
    winPct := winPctOf p w
    kills := ki
    deaths := d
    kdRatio := kdOf ki d }

/-- Source `df_overview_equipe`: the one-row team frame, empty when no overview rows
were loaded. -/
def df_overview_equipe (rows : List OverviewRow) : List OverviewRow :=
  if rows = [] then [] else [equipe_agg rows]

/-! ### Ranking functions (section 5 of the source) -/

/-- Pandas `df.sort_values(col, ascending=False)` on a rational sort key. -/
def sortDescBy (f : α → ℚ) (l : List α) : List α :=
  l.mergeSort (fun a b => decide (f b ≤ f a))

/-- Pandas `df.sort_values(col, ascending=True)` on a rational sort key. -/
def sortAscBy (f : α → ℚ) (l : List α) : List α :=
  l.mergeSort (fun a b => decide (f a ≤ f b))

/-- Descending order on an NA-able column; pandas places NA last. -/
def optDescLe (a b : Option ℚ) : Bool :=
  match a, b with
  | some x, some y => decide (y ≤ x)
  | some _, none => true
  | none, some _ => false
  | none, none => true

/-- Source `compute_best_worst_maps`: threshold filter, early empty return, then the
two `winPct` orderings (descending, ascending). -/
def compute_best_worst_maps (rows : List MapAggRow) (minMapMatches : ℚ) :
    List MapAggRow × List MapAggRow :=
  let df := rows.filter (fun r => decide (minMapMatches ≤ r.matchesPlayed))
  if df = [] then ([], [])
  else (sortDescBy MapAggRow.winPct df, sortAscBy MapAggRow.winPct df)

/-- Source `compute_most_played_operators`: threshold filter, early empty return,
then top-N by `matchesPlayed`, by `winPct`, and — after recomputing the
`killsPerMatch` column on the filtered frame — by `killsPerMatch`. -/
def compute_most_played_operators (rows : List OpPlayerAggRow)
    (minOperatorMatches : ℚ) (topN : Nat) :
    List OpPlayerAggRow × List OpPlayerAggRow × List OpPlayerAggRow :=
  let df := rows.filter (fun r => decide (minOperatorMatches ≤ r.matchesPlayed))
  if df = [] then ([], [], [])
  else
    let maisJogados := (sortDescBy OpPlayerAggRow.matchesPlayed df).take topN
    let maiorWin := (sortDescBy OpPlayerAggRow.winPct df).take topN
    let df2 := df.map (fun r => { r with killsPerMatch := kpmOf r.kills r.matchesPlayed })
    let maiorKpm :=
      (df2.mergeSort (fun a b => optDescLe a.killsPerMatch b.killsPerMatch)).take topN
    (maisJogados, maiorWin, maiorKpm)

/-- One row of the side aggregate `sides_df_agg`. -/
structure SideAggRow where
  side : String
  matchesPlayed : ℚ
  matchesWon : ℚ
  matchesLost : ℚ
  winPctSide : ℚ
deriving DecidableEq, Repr

/-- The side-aggregate row for one `side` group of the team operator table. -/
def sideAggRowOf (rows : List OpAggRow) (k : String) : SideAggRow :=
  let g := groupOn OpAggRow.side rows k
  let p := sumBy OpAggRow.matchesPlayed g
  let w := sumBy OpAggRow.matchesWon g
  { side := k
    matchesPlayed := p
    matchesWon := w
    matchesLost := p - w
    winPctSide := winPctOf p w }

/-- Source `compute_side_performance`: group the team operator aggregate by `side`,
sum the two match counts, derive `matchesLost` and `winPctSide`, and order by
`matchesPlayed` descending. -/
def compute_side_performance (rows : List OpAggRow) : List SideAggRow :=
  sortDescBy SideAggRow.matchesPlayed
    ((keysOf OpAggRow.side rows).map (sideAggRowOf rows))

/-! ### Report renderer (`create_pdf_report`)

A pandas frame is either the literal `pd.DataFrame()` — no columns, every
column access raises `KeyError` — or a frame that carries the schema columns
together with its (possibly empty) row list. `main` passes `pd.DataFrame()`
whenever a source-level table is empty. -/

inductive Frame (α : Type) where
  | noCols : Frame α
  | table : List α → Frame α
deriving DecidableEq

/-- The render-time unknown filter on the per-player operator aggregate:
`ops_df_agg_player["operatorName"].str.lower() != "unknown"`. -/
def renderFilterOps (rows : List OpPlayerAggRow) : List OpPlayerAggRow :=
  rows.filter (fun r => decide (¬ pyLower r.operatorName = "unknown"))

/-- The render-time unknown filter on the map aggregate:
`maps_df_agg["mapName"].str.lower() != "unknown"`. -/
def renderFilterMaps (rows : List MapAggRow) : List MapAggRow :=
  rows.filter (fun r => decide (¬ pyLower r.mapName = "unknown"))

/-- The render-time unknown filter on the side aggregate (column `side`). -/
def renderFilterSides (rows : List SideAggRow) : List SideAggRow :=
  rows.filter (fun r => decide (¬ pyLower r.side = "unknown"))

/-- The data-handling skeleton of `create_pdf_report`, faithful to the order
of operations of the source: the unknown filters (each guarded by a
column-presence check, hence skipped on a column-less frame), the two
unguarded threshold filters (which raise `KeyError` on a column-less frame),
and then the element stream, one marker string per emitted flowable group.
Sections for the map and side tables are guarded by `if not df.empty` and are
silently skipped when empty; only the per-player operator block and the
per-player overview block emit an explicit no-data line. -/
def create_pdf_report (jogadores : List String)
    (overviewRawByPlayer : List (String × OverviewJson))
    (mapsAgg : Frame MapAggRow)
    (opsAggPlayer : Frame OpPlayerAggRow)
    (sidesAgg : Frame SideAggRow)
    (minOperatorMatches minMapMatches : ℚ) :
    Except String (List String) :=
  -- 2.1 unknown filters, applied only if the column exists
  let opsF : Frame OpPlayerAggRow :=
    match opsAggPlayer with
    | .noCols => .noCols
    | .table rows => .table (renderFilterOps rows)
  let mapsF : Frame MapAggRow :=
    match mapsAgg with
    | .noCols => .noCols
    | .table rows => .table (renderFilterMaps rows)
  -- 2.2 threshold filter on operators: unguarded `ops_df_agg_player["matchesPlayed"]`
  match opsF with
  | .noCols => .error "KeyError: matchesPlayed"
  | .table opsRows0 =>
    let opsRows := opsRows0.filter (fun r => decide (minOperatorMatches ≤ r.matchesPlayed))
    -- 2.3 threshold filter on maps: unguarded `maps_df_agg["matchesPlayed"]`
    match mapsF with
    | .noCols => .error "KeyError: matchesPlayed"
    | .table mapRows0 =>
      let mapRows := mapRows0.filter (fun r => decide (minMapMatches ≤ r.matchesPlayed))
      -- 2.4 side unknown filter (guarded); a column-less side frame is empty
      let sidesRows : List SideAggRow :=
        match sidesAgg with
        | .noCols => []
        | .table rows => renderFilterSides rows
      -- 3 title, 4 team map/side summaries, 5 per-player operator insights,
      -- 6 map chart, 7 side table, 8 per-player overview block
      let e2 := if mapRows = [] then [] else ["mapas-resumo"]
      let e3 := if sidesRows = [] then [] else ["lados-resumo"]
      let e4 := jogadores.flatMap (fun pl =>
        if opsRows.filter (fun r => decide (r.player = pl)) = [] then
          ["ops-sem-dados:" ++ pl]
        else
          ["ops-insights:" ++ pl, "ops-grafico:" ++ pl])
      let e5 := if mapRows = [] then [] else ["mapas-grafico"]
      let e6 := if sidesRows = [] then [] else ["lados-tabela"]
      let e7 := overviewRawByPlayer.map (fun pr =>
        if parse_overview_to_df pr.2 pr.1 = [] then
          "overview-sem-dados:" ++ pr.1
        else
          "overview-linha:" ++ pr.1)
      .ok (["titulo"] ++ e2 ++ e3 ++ e4 ++ e5 ++ e6 ++ ["estatisticas-gerais"] ++ e7)

/-! ### Concrete inputs used by witnesses and counterexamples -/

/-- An overview segment whose stored `matchesLost` (7) disagrees with
`matchesPlayed − matchesWon` (10 − 4 = 6). -/
def ovSeg : Segment :=
  ⟨"overview",
   [("matchesPlayed", ⟨some 10⟩), ("matchesWon", ⟨some 4⟩),
    ("matchesLost", ⟨some 7⟩), ("kills", ⟨some 200⟩),
    ("deaths", ⟨some 150⟩)]⟩

/-- An `overview.json` holding just the segment `ovSeg`. -/
def ovInput : OverviewJson :=
  ⟨[ovSeg]⟩

/-- A `maps.json` entry reporting more wins (2) than matches played (1). -/
def mapEntryOregon : MapEntry :=
  ⟨some "Oregon", none,
   [("matchesPlayed", ⟨some 1⟩), ("matchesWon", ⟨some 2⟩)]⟩

/-- Two raw "Ash"/attacker operator entries of the §8 scenario:
40 matches / 20 wins and 60 matches / 45 wins. -/
def ashEntry1 : OpEntry :=
  ⟨some "Ash", none, some "attacker",
   [("matchesPlayed", ⟨some 40⟩), ("matchesWon", ⟨some 20⟩)]⟩

/-- Second entry of the scenario, see `ashEntry1`. -/
def ashEntry2 : OpEntry :=
  ⟨some "Ash", none, some "attacker",
   [("matchesPlayed", ⟨some 60⟩), ("matchesWon", ⟨some 45⟩)]⟩

/-- The concatenated extracted operator rows of the two-participant §8
scenario: player "A" contributes `ashEntry1`, player "B" `ashEntry2`. -/
def ashRows : List OpRow :=
  parse_operators_to_df [ashEntry1] "A" ++ parse_operators_to_df [ashEntry2] "B"

/-- A concrete extracted operator row (player "A", "Ash", attacker). -/
def opRowAsh : OpRow :=
  { player := "A", operatorName := "Ash", side := "attacker"
    matchesPlayed := 40, matchesWon := 20, winPct := 50
    kills := 30, deaths := 25, kdRatio := 6/5 }

/-- A concrete extracted operator row with every count 0. -/
def opRowZero : OpRow :=
  { player := "A", operatorName := "Smoke", side := "defender"
    matchesPlayed := 0, matchesWon := 0, winPct := 0
    kills := 0, deaths := 0, kdRatio := 0 }

/-- A concrete extracted map row (player "A", "Oregon", 50 matches,
30 wins). -/
def mapRowOregonA : MapRow :=
  { player := "A", mapName := "Oregon", matchesPlayed := 50, matchesWon := 30
    winPct := 60, kills := 200, deaths := 150, kdRatio := 4/3 }

/-- A concrete per-player operator aggregate row (player "A", "Ash",
attacker, 100 matches, 65 wins, 180 kills, 90 deaths). -/
def opPlayerRowAsh : OpPlayerAggRow :=
  { player := "A", operatorName := "Ash", side := "attacker"
    matchesPlayed := 100, matchesWon := 65, kills := 180, deaths := 90
    matchesLost := 35, winPct := 65, kdRatio := 2, killsPerMatch := some (9/5) }

/-- A concrete map aggregate row ("Oregon", 40 matches, 25 wins). -/
def mapAggRowOregon : MapAggRow :=
  { mapName := "Oregon", matchesPlayed := 40, matchesWon := 25
    kills := 160, deaths := 120, matchesLost := 15, winPct := 62.5
    kdRatio := 4/3 }

/-- A second concrete map aggregate row ("Bank", 20 matches, 5 wins). -/
def mapAggRowBank : MapAggRow :=
  { mapName := "Bank", matchesPlayed := 20, matchesWon := 5
    kills := 70, deaths := 80, matchesLost := 15, winPct := 25
    kdRatio := 7/8 }

/-! ### Helper lemmas -/

theorem getStat_of_absentOrNull {s : Stats} {k : String} (h : absentOrNull s k) :
    getStat s k = 0 := by
  rcases h with h | ⟨e, he, hv⟩
  · simp [getStat, h]
  · simp [getStat, he, hv]

theorem mem_parse_operators {os : List OpEntry} {p : String} {r : OpRow}
    (h : r ∈ parse_operators_to_df os p) :
    ∃ e ∈ os, ¬ badName (opNameOf e) ∧ r = opRowOf e p := by
  rcases List.mem_filterMap.mp h with ⟨e, he, hr⟩
  by_cases hb : badName (opNameOf e)
  · simp [hb] at hr
  · refine ⟨e, he, hb, ?_⟩
    simp [hb] at hr
    exact hr.symm

theorem nodup_keysOf (key : α → κ) [DecidableEq κ] (rows : List α) :
    (keysOf key rows).Nodup :=
  List.nodup_dedup _

theorem mem_keysOf_of_mem {key : α → κ} [DecidableEq κ] {rows : List α} {r : α}
    (h : r ∈ rows) : key r ∈ keysOf key rows := by
  simp only [keysOf, List.mem_dedup, List.mem_map]
  exact ⟨r, h, rfl⟩

theorem exists_of_mem_keysOf {key : α → κ} [DecidableEq κ] {rows : List α} {k : κ}
    (h : k ∈ keysOf key rows) : ∃ r ∈ rows, key r = k := by
  simpa only [keysOf, List.mem_dedup, List.mem_map] using h

theorem mem_groupOn {key : α → κ} [DecidableEq κ] {rows : List α} {k : κ} {r : α} :
    r ∈ groupOn key rows k ↔ r ∈ rows ∧ key r = k := by
  simp [groupOn]

theorem sumBy_nonneg {f : α → ℚ} {l : List α} (h : ∀ r ∈ l, 0 ≤ f r) :
    0 ≤ sumBy f l := by
  refine List.sum_nonneg ?_
  intro x hx
  rcases List.mem_map.mp hx with ⟨r, hr, rfl⟩
  exact h r hr

theorem sumBy_le_sumBy {f g : α → ℚ} {l : List α} (h : ∀ r ∈ l, f r ≤ g r) :
    sumBy f l ≤ sumBy g l := by
  simpa only [sumBy] using List.sum_le_sum h

theorem sumBy_filter_add (f : α → ℚ) (p : α → Bool) (l : List α) :
    sumBy f (l.filter p) + sumBy f (l.filter (fun a => !(p a))) = sumBy f l := by
  induction l with
  | nil => simp [sumBy]
  | cons a t ih =>
    by_cases hp : p a
    · simp [sumBy, List.filter_cons, hp] at ih ⊢
      linarith
    · simp [sumBy, List.filter_cons, hp] at ih ⊢
      linarith

theorem sum_groupOn_eq_sumBy {key : α → κ} [DecidableEq κ] (f : α → ℚ) :
    ∀ (L : List κ), L.Nodup → ∀ (rows : List α), (∀ r ∈ rows, key r ∈ L) →
      (L.map (fun k => sumBy f (groupOn key rows k))).sum = sumBy f rows := by
  intro L
  induction L with
  | nil =>
    intro _ rows hcov
    cases rows with
    | nil => simp [sumBy]
    | cons r t => exact absurd (hcov r (by simp)) (by simp)
  | cons k L ih =>
    intro hnd rows hcov
    have hk : k ∉ L := (List.nodup_cons.mp hnd).1
    have hnd2 : L.Nodup := (List.nodup_cons.mp hnd).2
    have hgroups : ∀ j ∈ L, groupOn key rows j =
        groupOn key (rows.filter (fun r => !(decide (key r = k)))) j := by
      intro j hj
      simp only [groupOn, List.filter_filter]
      refine (List.filter_congr ?_).symm
      intro r _
      by_cases h : key r = j
      · have hne : ¬ key r = k := fun hc => hk ((hc.symm.trans h) ▸ hj)
        have hjk : ¬ j = k := fun hq => hk (hq ▸ hj)
        simp [h, hne, hjk]
      · simp [h]
    have hcov2 : ∀ r ∈ rows.filter (fun r => !(decide (key r = k))), key r ∈ L := by
      intro r hr
      have hm := List.mem_filter.mp hr
      have hne : ¬ key r = k := by simpa using hm.2
      rcases List.mem_cons.mp (hcov r hm.1) with h | h
      · exact absurd h hne
      · exact h
    have htail : (L.map (fun j => sumBy f (groupOn key rows j))).sum =
        sumBy f (rows.filter (fun r => !(decide (key r = k)))) := by
      rw [List.map_congr_left (fun j hj => by rw [hgroups j hj])]
      exact ih hnd2 _ hcov2
    have hsplit := sumBy_filter_add f (fun r => decide (key r = k)) rows
    simp only [List.map_cons, List.sum_cons, htail]
    simpa only [groupOn] using hsplit

theorem sum_map_keysOf (key : α → κ) [DecidableEq κ] (f : α → ℚ) (rows : List α) :
    ((keysOf key rows).map (fun k => sumBy f (groupOn key rows k))).sum = sumBy f rows :=
  sum_groupOn_eq_sumBy f (keysOf key rows) (nodup_keysOf key rows) rows
    (fun _ hr => mem_keysOf_of_mem hr)

theorem winPctOf_zero_of_not_pos {p w : ℚ} (h : ¬ 0 < p) : winPctOf p w = 0 := by
  simp [winPctOf, h]

theorem winPctOf_zero_case {p w : ℚ} (h : p = 0) : winPctOf p w = 0 := by
  simp [winPctOf, h]

theorem winPctOf_bounds {p w : ℚ} (h0 : 0 ≤ w) (hwp : w ≤ p) (hp : 0 < p) :
    0 ≤ winPctOf p w ∧ winPctOf p w ≤ 100 := by
  have hdiv0 : 0 ≤ w / p := div_nonneg h0 hp.le
  have hdiv1 : w / p ≤ 1 := (div_le_one hp).mpr hwp
  constructor
  · simp only [winPctOf, if_pos hp]
    positivity
  · simp only [winPctOf, if_pos hp]
    nlinarith

theorem winPctOf_eq_ite {p : ℚ} (hp : 0 ≤ p) (w : ℚ) :
    winPctOf p w = if p = 0 then 0 else w / p * 100 := by
  rcases lt_or_eq_of_le hp with h | h
  · simp [winPctOf, h, ne_of_gt h]
  · simp [winPctOf, ← h]

theorem kdOf_eq_ite {d : ℚ} (hd : 0 ≤ d) (k : ℚ) :
    kdOf k d = if d = 0 then 0 else k / d := by
  rcases lt_or_eq_of_le hd with h | h
  · simp [kdOf, h, ne_of_gt h]
  · simp [kdOf, ← h]

theorem sortDescBy_perm (f : α → ℚ) (l : List α) : (sortDescBy f l).Perm l :=
  List.mergeSort_perm l _

theorem sortAscBy_perm (f : α → ℚ) (l : List α) : (sortAscBy f l).Perm l :=
  List.mergeSort_perm l _

theorem sortDescBy_pairwise (f : α → ℚ) (l : List α) :
    (sortDescBy f l).Pairwise (fun a b => f b ≤ f a) := by
  have h := @List.sorted_mergeSort α (fun a b => decide (f b ≤ f a))
    (fun a b c hab hbc => by
      simp only [decide_eq_true_eq] at *
      exact le_trans hbc hab)
    (fun a b => by
      simpa only [Bool.or_eq_true, decide_eq_true_eq] using le_total (f b) (f a)) l
  exact h.imp (fun hab => by simpa using hab)

theorem sortAscBy_pairwise (f : α → ℚ) (l : List α) :
    (sortAscBy f l).Pairwise (fun a b => f a ≤ f b) := by
  have h := @List.sorted_mergeSort α (fun a b => decide (f a ≤ f b))
    (fun a b c hab hbc => by
      simp only [decide_eq_true_eq] at *
      exact le_trans hab hbc)
    (fun a b => by
      simpa only [Bool.or_eq_true, decide_eq_true_eq] using le_total (f a) (f b)) l
  exact h.imp (fun hab => by simpa using hab)

/-- Evaluation of the overview extractor on the concrete input `ovInput`. -/
theorem parse_overview_ovInput :
    parse_overview_to_df ovInput "A" = [overviewRowOf "A" ovSeg.stats] := rfl

/-! ### Claim theorems -/

/-- C8: for every extractor (overview, map, operator) and every statistic
key, if the key is absent from the stats mapping of the record or its value is
null, the corresponding field in the extracted row equals 0. -/
theorem C8_missing_stat_defaults_to_zero :
    (∀ (s : Stats) (k : String), absentOrNull s k → getStat s k = 0) ∧
    (∀ (p : String) (s : Stats),
      (absentOrNull s "matchesPlayed" → (overviewRowOf p s).matchesPlayed = 0) ∧
      (absentOrNull s "matchesWon" → (overviewRowOf p s).matchesWon = 0) ∧
      (absentOrNull s "matchesLost" → (overviewRowOf p s).matchesLost = 0) ∧
      (absentOrNull s "winPercentage" → (overviewRowOf p s).winPct = 0) ∧
      (absentOrNull s "kills" → (overviewRowOf p s).kills = 0) ∧
      (absentOrNull s "deaths" → (overviewRowOf p s).deaths = 0) ∧
      (absentOrNull s "kdRatio" → (overviewRowOf p s).kdRatio = 0)) ∧
    (∀ (e : MapEntry) (p : String),
      (absentOrNull e.stats "matchesPlayed" → (parseMapEntry e p).matchesPlayed = 0) ∧
      (absentOrNull e.stats "matchesWon" → (parseMapEntry e p).matchesWon = 0) ∧
      (absentOrNull e.stats "winPercentage" → (parseMapEntry e p).winPct = 0) ∧
      (absentOrNull e.stats "kills" → (parseMapEntry e p).kills = 0) ∧
      (absentOrNull e.stats "deaths" → (parseMapEntry e p).deaths = 0) ∧
      (absentOrNull e.stats "kdRatio" → (parseMapEntry e p).kdRatio = 0)) ∧
    (∀ (e : OpEntry) (p : String),
      (absentOrNull e.stats "matchesPlayed" → (opRowOf e p).matchesPlayed = 0) ∧
      (absentOrNull e.stats "matchesWon" → (opRowOf e p).matchesWon = 0) ∧
      (absentOrNull e.stats "winPercentage" → (opRowOf e p).winPct = 0) ∧
      (absentOrNull e.stats "kills" → (opRowOf e p).kills = 0) ∧
      (absentOrNull e.stats "deaths" → (opRowOf e p).deaths = 0) ∧
      (absentOrNull e.stats "kdRatio" → (opRowOf e p).kdRatio = 0)) := by
  refine ⟨fun _ _ h => getStat_of_absentOrNull h, fun p s => ?_, fun e p => ?_, fun e p => ?_⟩
  · exact ⟨fun h => getStat_of_absentOrNull h, fun h => getStat_of_absentOrNull h,
      fun h => getStat_of_absentOrNull h, fun h => getStat_of_absentOrNull h,
      fun h => getStat_of_absentOrNull h, fun h => getStat_of_absentOrNull h,
      fun h => getStat_of_absentOrNull h⟩
  · exact ⟨fun h => getStat_of_absentOrNull h, fun h => getStat_of_absentOrNull h,
      fun h => getStat_of_absentOrNull h, fun h => getStat_of_absentOrNull h,
      fun h => getStat_of_absentOrNull h, fun h => getStat_of_absentOrNull h⟩
  · exact ⟨fun h => getStat_of_absentOrNull h, fun h => getStat_of_absentOrNull h,
      fun h => getStat_of_absentOrNull h, fun h => getStat_of_absentOrNull h,
      fun h => getStat_of_absentOrNull h, fun h => getStat_of_absentOrNull h⟩

/-- Witness for C8 at a concrete record with no stats at all. -/
theorem C8_missing_stat_defaults_to_zero_witness :
    absentOrNull ([] : Stats) "kills" ∧
    getStat ([] : Stats) "kills" = 0 ∧
    (parseMapEntry ⟨some "Oregon", none, []⟩ "A").kills = 0 :=
  ⟨Or.inl rfl,
   C8_missing_stat_defaults_to_zero.1 [] "kills" (Or.inl rfl),
   ((C8_missing_stat_defaults_to_zero.2.2.1 ⟨some "Oregon", none, []⟩ "A").2.2.2.1
     (Or.inl rfl))⟩

/-- C1 counterexample: on `ovInput` the extracted overview row has
`matchesLost = 7` while `matchesPlayed − matchesWon = 6`, and the team
overview aggregate inherits the discrepancy because it sums the stored
`matchesLost` values. -/
theorem C1_counterexample :
    (¬ ∀ r ∈ parse_overview_to_df ovInput "A",
        r.matchesLost = r.matchesPlayed - r.matchesWon) ∧
    (¬ (equipe_agg (parse_overview_to_df ovInput "A")).matchesLost =
        (equipe_agg (parse_overview_to_df ovInput "A")).matchesPlayed -
        (equipe_agg (parse_overview_to_df ovInput "A")).matchesWon) := by
  constructor
  · intro h
    have h7 := h (overviewRowOf "A" ovSeg.stats)
      (by rw [parse_overview_ovInput]; exact List.mem_singleton.mpr rfl)
    simp [overviewRowOf, ovSeg, getStat, lookupStat, List.find?] at h7
    norm_num at h7
  · intro h
    rw [parse_overview_ovInput] at h
    simp [equipe_agg, sumBy, overviewRowOf, ovSeg, getStat, lookupStat,
      List.find?] at h
    norm_num at h

/-- C1 (amended): the per-participant overview row reads `matchesLost` from
the stored stat and the team overview aggregate sums those stored values;
`matchesLost = matchesPlayed − matchesWon` is derived only in the map,
team-operator, per-player-operator and side aggregates. -/
theorem C1_matchesLost_amended :
    (∀ (o : OverviewJson) (p : String) (seg : Segment),
        findOverviewSegment o = some seg →
        ∀ r ∈ parse_overview_to_df o p,
          r.matchesLost = getStat seg.stats "matchesLost") ∧
    (∀ rows : List OverviewRow,
        (equipe_agg rows).matchesLost = sumBy OverviewRow.matchesLost rows) ∧
    (∀ rows : List MapRow, ∀ a ∈ maps_df_agg rows,
        a.matchesLost = a.matchesPlayed - a.matchesWon) ∧
    (∀ rows : List OpRow, ∀ a ∈ ops_df_agg_team rows,
        a.matchesLost = a.matchesPlayed - a.matchesWon) ∧
    (∀ rows : List OpRow, ∀ a ∈ ops_df_agg_player rows,
        a.matchesLost = a.matchesPlayed - a.matchesWon) ∧
    (∀ rows : List OpAggRow, ∀ a ∈ compute_side_performance rows,
        a.matchesLost = a.matchesPlayed - a.matchesWon) := by
  refine ⟨?_, fun rows => rfl, ?_, ?_, ?_, ?_⟩
  · intro o p seg hseg r hr
    simp only [parse_overview_to_df, hseg, List.mem_singleton] at hr
    subst hr
    rfl
  · intro rows a ha
    rcases List.mem_map.mp ha with ⟨k, _, rfl⟩
    rfl
  · intro rows a ha
    rcases List.mem_map.mp ha with ⟨k, _, rfl⟩
    rfl
  · intro rows a ha
    rcases List.mem_map.mp ha with ⟨k, _, rfl⟩
    rfl
  · intro rows a ha
    have ha2 : a ∈ (keysOf OpAggRow.side rows).map (sideAggRowOf rows) :=
      (sortDescBy_perm SideAggRow.matchesPlayed _).mem_iff.mp ha
    rcases List.mem_map.mp ha2 with ⟨k, _, rfl⟩
    rfl

/-- Witness for C1 (amended) at the concrete input `ovInput`. -/
theorem C1_matchesLost_amended_witness :
    (overviewRowOf "A" ovSeg.stats).matchesLost = getStat ovSeg.stats "matchesLost" :=
  C1_matchesLost_amended.1 ovInput "A" ovSeg rfl (overviewRowOf "A" ovSeg.stats)
    (by rw [parse_overview_ovInput]; exact List.mem_singleton.mpr rfl)

/-- C2: the operator extractor never emits a row whose name is empty or
case-insensitively "unknown"; both operator aggregates (whose group names
come from the extracted rows) inherit the invariant — also when fed the
concatenation of the per-participant extractions — and the report renderer
re-applies the case-insensitive unknown filter to operator and map rows. -/
theorem C2_no_unknown_rows :
    (∀ (os : List OpEntry) (p : String),
        ∀ r ∈ parse_operators_to_df os p, ¬ badName r.operatorName) ∧
    (∀ rows : List OpRow, (∀ r ∈ rows, ¬ badName r.operatorName) →
        ∀ a ∈ ops_df_agg_team rows, ¬ badName a.operatorName) ∧
    (∀ rows : List OpRow, (∀ r ∈ rows, ¬ badName r.operatorName) →
        ∀ a ∈ ops_df_agg_player rows, ¬ badName a.operatorName) ∧
    (∀ inputs : List (List OpEntry × String),
        ∀ a ∈ ops_df_agg_team
            (inputs.flatMap (fun q => parse_operators_to_df q.1 q.2)),
          ¬ badName a.operatorName) ∧
    (∀ rows : List OpPlayerAggRow,
        ∀ a ∈ renderFilterOps rows, ¬ pyLower a.operatorName = "unknown") ∧
    (∀ rows : List MapAggRow,
        ∀ a ∈ renderFilterMaps rows, ¬ pyLower a.mapName = "unknown") := by
  have hext : ∀ (os : List OpEntry) (p : String),
      ∀ r ∈ parse_operators_to_df os p, ¬ badName r.operatorName := by
    intro os p r hr
    rcases mem_parse_operators hr with ⟨e, _, hb, rfl⟩
    exact hb
  have hteam : ∀ rows : List OpRow, (∀ r ∈ rows, ¬ badName r.operatorName) →
      ∀ a ∈ ops_df_agg_team rows, ¬ badName a.operatorName := by
    intro rows h a ha
    rcases List.mem_map.mp ha with ⟨k, hk, rfl⟩
    rcases exists_of_mem_keysOf hk with ⟨r, hr, hkey⟩
    have : (opAggRowOf rows k).operatorName = r.operatorName := by
      rw [← hkey]; rfl
    rw [this]
    exact h r hr
  refine ⟨hext, hteam, ?_, ?_, ?_, ?_⟩
  · intro rows h a ha
    rcases List.mem_map.mp ha with ⟨k, hk, rfl⟩
    rcases exists_of_mem_keysOf hk with ⟨r, hr, hkey⟩
    have : (opPlayerAggRowOf rows k).operatorName = r.operatorName := by
      rw [← hkey]; rfl
    rw [this]
    exact h r hr
  · intro inputs a ha
    refine hteam _ ?_ a ha
    intro r hr
    rcases List.mem_flatMap.mp hr with ⟨q, _, hq⟩
    exact hext q.1 q.2 r hq
  · intro rows a ha
    have := (List.mem_filter.mp ha).2
    simpa using this
  · intro rows a ha
    have := (List.mem_filter.mp ha).2
    simpa using this

/-- Witness for C2 at a concrete one-row operator table. -/
theorem C2_no_unknown_rows_witness :
    ¬ badName (opAggRowOf [opRowAsh] ("Ash", "attacker")).operatorName :=
  C2_no_unknown_rows.2.1 [opRowAsh]
    (by
      intro r hr
      rw [List.mem_singleton] at hr
      subst hr
      decide)
    (opAggRowOf [opRowAsh] ("Ash", "attacker"))
    (List.mem_singleton.mpr rfl)

/-- The `(0 < p → winPct in range)` / `(p = 0 → winPct = 0)` pattern, from
the group sums. -/
theorem winPct_claim_of_sums {w p : ℚ} (h0 : 0 ≤ w) (hwp : w ≤ p) :
    (0 < p → 0 ≤ winPctOf p w ∧ winPctOf p w ≤ 100) ∧ (p = 0 → winPctOf p w = 0) :=
  ⟨fun hp => winPctOf_bounds h0 hwp hp, fun hp => by simp [winPctOf, hp]⟩

/-- The NA policy of `killsPerMatch` as a pair of facts about `kpmOf`. -/
theorem kpmOf_policy (ki p : ℚ) :
    kpmOf ki p = (if p = 0 then none else some (ki / p)) ∧
    (p = 0 → ¬ kpmOf ki p = some 0) :=
  ⟨rfl, fun h => by simp [kpmOf, h]⟩

/-- The zero-guard of `kdRatio`: 0 whenever deaths is 0. -/
theorem kdOf_of_deaths_zero {ki d : ℚ} (h : d = 0) : kdOf ki d = 0 := by
  simp [kdOf, h]

/-- C3 (code bug): rendering does not degrade gracefully on empty input
tables. With the map aggregate passed as the literal empty `pd.DataFrame()`
— exactly what `main` passes when no map data was loaded — the unguarded threshold filter raises `KeyError: matchesPlayed` and the whole
document is aborted. Even with an empty-but-columned map table the renderer
completes but silently omits the map and side sections instead of emitting a
"no data" line; only the per-player operator and overview blocks do. -/
theorem C3_renderer_not_graceful_on_empty :
    create_pdf_report ["A"] [] Frame.noCols (Frame.table []) (Frame.table []) 100 10
      = Except.error "KeyError: matchesPlayed" ∧
    create_pdf_report ["A"] [] (Frame.table []) (Frame.table []) (Frame.table []) 100 10
      = Except.ok ["titulo", "ops-sem-dados:A", "estatisticas-gerais"] :=
  ⟨rfl, rfl⟩

/-- C4 counterexample: a raw map record with `matchesWon = 2` and
`matchesPlayed = 1` yields an aggregate row with `winPct = 200 ∉ [0, 100]`:
the code never clamps `winPct`. -/
theorem C4_counterexample :
    ¬ ∀ a ∈ maps_df_agg (parse_maps_to_df [mapEntryOregon] "A"),
        (0 < a.matchesPlayed → 0 ≤ a.winPct ∧ a.winPct ≤ 100) ∧
        (a.matchesPlayed = 0 → a.winPct = 0) := by
  intro h
  have hmem : mapAggRowOf (parse_maps_to_df [mapEntryOregon] "A") "Oregon" ∈
      maps_df_agg (parse_maps_to_df [mapEntryOregon] "A") :=
    List.mem_singleton.mpr rfl
  have hrow := h _ hmem
  have hp : (mapAggRowOf (parse_maps_to_df [mapEntryOregon] "A") "Oregon").matchesPlayed
      = 1 := by
    have e : (mapAggRowOf (parse_maps_to_df [mapEntryOregon] "A") "Oregon").matchesPlayed
        = (1 : ℚ) + 0 := rfl
    rw [e]
    norm_num
  have hw : (mapAggRowOf (parse_maps_to_df [mapEntryOregon] "A") "Oregon").winPct
      = 200 := by
    have e : (mapAggRowOf (parse_maps_to_df [mapEntryOregon] "A") "Oregon").winPct
        = winPctOf ((1 : ℚ) + 0) ((2 : ℚ) + 0) := rfl
    rw [e]
    norm_num [winPctOf]
  have hbound := (hrow.1 (by rw [hp]; norm_num)).2
  rw [hw] at hbound
  norm_num at hbound

/-- C4 (amended): `winPct` lies in `[0, 100]` on every aggregate row whose
group has `matchesPlayed > 0`, provided every contributing input row has
`0 ≤ matchesWon ≤ matchesPlayed`; `winPct = 0` when `matchesPlayed = 0`
holds unconditionally. -/
theorem C4_winPct_range_amended :
    (∀ rows : List MapRow,
        (∀ r ∈ rows, 0 ≤ r.matchesWon ∧ r.matchesWon ≤ r.matchesPlayed) →
        ∀ a ∈ maps_df_agg rows,
          0 < a.matchesPlayed → 0 ≤ a.winPct ∧ a.winPct ≤ 100) ∧
    (∀ rows : List MapRow, ∀ a ∈ maps_df_agg rows,
        a.matchesPlayed = 0 → a.winPct = 0) ∧
    (∀ rows : List OpRow,
        (∀ r ∈ rows, 0 ≤ r.matchesWon ∧ r.matchesWon ≤ r.matchesPlayed) →
        ∀ a ∈ ops_df_agg_team rows,
          0 < a.matchesPlayed → 0 ≤ a.winPct ∧ a.winPct ≤ 100) ∧
    (∀ rows : List OpRow, ∀ a ∈ ops_df_agg_team rows,
        a.matchesPlayed = 0 → a.winPct = 0) ∧
    (∀ rows : List OpRow,
        (∀ r ∈ rows, 0 ≤ r.matchesWon ∧ r.matchesWon ≤ r.matchesPlayed) →
        ∀ a ∈ ops_df_agg_player rows,
          0 < a.matchesPlayed → 0 ≤ a.winPct ∧ a.winPct ≤ 100) ∧
    (∀ rows : List OpRow, ∀ a ∈ ops_df_agg_player rows,
        a.matchesPlayed = 0 → a.winPct = 0) ∧
    (∀ rows : List OverviewRow,
        (∀ r ∈ rows, 0 ≤ r.matchesWon ∧ r.matchesWon ≤ r.matchesPlayed) →
        ∀ a ∈ df_overview_equipe rows,
          0 < a.matchesPlayed → 0 ≤ a.winPct ∧ a.winPct ≤ 100) ∧
    (∀ rows : List OverviewRow, ∀ a ∈ df_overview_equipe rows,
        a.matchesPlayed = 0 → a.winPct = 0) := by
  refine ⟨?_, ?_, ?_, ?_, ?_, ?_, ?_, ?_⟩
  · intro rows h a ha
    rcases List.mem_map.mp ha with ⟨k, _, rfl⟩
    exact (winPct_claim_of_sums
      (sumBy_nonneg (fun r hr => (h r (mem_groupOn.mp hr).1).1))
      (sumBy_le_sumBy (fun r hr => (h r (mem_groupOn.mp hr).1).2))).1
  · intro rows a ha
    rcases List.mem_map.mp ha with ⟨k, _, rfl⟩
    exact fun h => winPctOf_zero_case h
  · intro rows h a ha
    rcases List.mem_map.mp ha with ⟨k, _, rfl⟩
    exact (winPct_claim_of_sums
      (sumBy_nonneg (fun r hr => (h r (mem_groupOn.mp hr).1).1))
      (sumBy_le_sumBy (fun r hr => (h r (mem_groupOn.mp hr).1).2))).1
  · intro rows a ha
    rcases List.mem_map.mp ha with ⟨k, _, rfl⟩
    exact fun h => winPctOf_zero_case h
  · intro rows h a ha
    rcases List.mem_map.mp ha with ⟨k, _, rfl⟩
    exact (winPct_claim_of_sums
      (sumBy_nonneg (fun r hr => (h r (mem_groupOn.mp hr).1).1))
      (sumBy_le_sumBy (fun r hr => (h r (mem_groupOn.mp hr).1).2))).1
  · intro rows a ha
    rcases List.mem_map.mp ha with ⟨k, _, rfl⟩
    exact fun h => winPctOf_zero_case h
  · intro rows h a ha
    by_cases hrows : rows = []
    · simp [df_overview_equipe, hrows] at ha
    · simp only [df_overview_equipe, if_neg hrows, List.mem_singleton] at ha
      subst ha
      exact (winPct_claim_of_sums
        (sumBy_nonneg (fun r hr => (h r hr).1))
        (sumBy_le_sumBy (fun r hr => (h r hr).2))).1
  · intro rows a ha
    by_cases hrows : rows = []
    · simp [df_overview_equipe, hrows] at ha
    · simp only [df_overview_equipe, if_neg hrows, List.mem_singleton] at ha
      subst ha
      exact fun h => winPctOf_zero_case h

/-- Witness for C4 (amended) at a concrete one-row map table. -/
theorem C4_winPct_range_amended_witness :
    0 ≤ (mapAggRowOf [mapRowOregonA] "Oregon").winPct ∧
    (mapAggRowOf [mapRowOregonA] "Oregon").winPct ≤ 100 :=
  C4_winPct_range_amended.1 [mapRowOregonA]
    (by
      intro r hr
      rw [List.mem_singleton] at hr
      subst hr
      constructor <;> norm_num [mapRowOregonA])
    (mapAggRowOf [mapRowOregonA] "Oregon")
    (List.mem_singleton.mpr rfl)
    (by
      have e : (mapAggRowOf [mapRowOregonA] "Oregon").matchesPlayed
          = (50 : ℚ) + 0 := rfl
      rw [e]
      norm_num)

/-- C5: on every aggregate row, the four counts are the group sums of the
input counts, `winPct` is recomputed as summed wins over summed matches times
100 (0 when the summed matches are 0), and `kdRatio` as summed kills over
summed deaths (0 when the summed deaths are 0) — never by summing or
averaging the per-participant ratio columns. Inputs are assumed count-like
(nonnegative `matchesPlayed` and `deaths`). -/
theorem C5_ratios_recomputed_from_sums :
    (∀ rows : List MapRow,
        (∀ r ∈ rows, 0 ≤ r.matchesPlayed ∧ 0 ≤ r.deaths) →
        ∀ a ∈ maps_df_agg rows,
          a.matchesPlayed = sumBy MapRow.matchesPlayed (groupOn MapRow.mapName rows a.mapName) ∧
          a.matchesWon = sumBy MapRow.matchesWon (groupOn MapRow.mapName rows a.mapName) ∧
          a.kills = sumBy MapRow.kills (groupOn MapRow.mapName rows a.mapName) ∧
          a.deaths = sumBy MapRow.deaths (groupOn MapRow.mapName rows a.mapName) ∧
          a.winPct = (if a.matchesPlayed = 0 then 0 else a.matchesWon / a.matchesPlayed * 100) ∧
          a.kdRatio = (if a.deaths = 0 then 0 else a.kills / a.deaths)) ∧
    (∀ rows : List OpRow,
        (∀ r ∈ rows, 0 ≤ r.matchesPlayed ∧ 0 ≤ r.deaths) →
        ∀ a ∈ ops_df_agg_team rows,
          a.matchesPlayed = sumBy OpRow.matchesPlayed (groupOn opTeamKey rows (a.operatorName, a.side)) ∧
          a.matchesWon = sumBy OpRow.matchesWon (groupOn opTeamKey rows (a.operatorName, a.side)) ∧
          a.kills = sumBy OpRow.kills (groupOn opTeamKey rows (a.operatorName, a.side)) ∧
          a.deaths = sumBy OpRow.deaths (groupOn opTeamKey rows (a.operatorName, a.side)) ∧
          a.winPct = (if a.matchesPlayed = 0 then 0 else a.matchesWon / a.matchesPlayed * 100) ∧
          a.kdRatio = (if a.deaths = 0 then 0 else a.kills / a.deaths)) ∧
    (∀ rows : List OpRow,
        (∀ r ∈ rows, 0 ≤ r.matchesPlayed ∧ 0 ≤ r.deaths) →
        ∀ a ∈ ops_df_agg_player rows,
          a.matchesPlayed = sumBy OpRow.matchesPlayed (groupOn opPlayerKey rows (a.player, a.operatorName, a.side)) ∧
          a.matchesWon = sumBy OpRow.matchesWon (groupOn opPlayerKey rows (a.player, a.operatorName, a.side)) ∧
          a.kills = sumBy OpRow.kills (groupOn opPlayerKey rows (a.player, a.operatorName, a.side)) ∧
          a.deaths = sumBy OpRow.deaths (groupOn opPlayerKey rows (a.player, a.operatorName, a.side)) ∧
          a.winPct = (if a.matchesPlayed = 0 then 0 else a.matchesWon / a.matchesPlayed * 100) ∧
          a.kdRatio = (if a.deaths = 0 then 0 else a.kills / a.deaths)) ∧
    (∀ rows : List OverviewRow,
        (∀ r ∈ rows, 0 ≤ r.matchesPlayed ∧ 0 ≤ r.deaths) →
        ∀ a ∈ df_overview_equipe rows,
          a.matchesPlayed = sumBy OverviewRow.matchesPlayed rows ∧
          a.matchesWon = sumBy OverviewRow.matchesWon rows ∧
          a.kills = sumBy OverviewRow.kills rows ∧
          a.deaths = sumBy OverviewRow.deaths rows ∧
          a.winPct = (if a.matchesPlayed = 0 then 0 else a.matchesWon / a.matchesPlayed * 100) ∧
          a.kdRatio = (if a.deaths = 0 then 0 else a.kills / a.deaths)) := by
  refine ⟨?_, ?_, ?_, ?_⟩
  · intro rows h a ha
    rcases List.mem_map.mp ha with ⟨k, _, rfl⟩
    exact ⟨rfl, rfl, rfl, rfl,
      winPctOf_eq_ite (sumBy_nonneg (fun r hr => (h r (mem_groupOn.mp hr).1).1)) _,
      kdOf_eq_ite (sumBy_nonneg (fun r hr => (h r (mem_groupOn.mp hr).1).2)) _⟩
  · intro rows h a ha
    rcases List.mem_map.mp ha with ⟨k, _, rfl⟩
    exact ⟨rfl, rfl, rfl, rfl,
      winPctOf_eq_ite (sumBy_nonneg (fun r hr => (h r (mem_groupOn.mp hr).1).1)) _,
      kdOf_eq_ite (sumBy_nonneg (fun r hr => (h r (mem_groupOn.mp hr).1).2)) _⟩
  · intro rows h a ha
    rcases List.mem_map.mp ha with ⟨k, _, rfl⟩
    exact ⟨rfl, rfl, rfl, rfl,
      winPctOf_eq_ite (sumBy_nonneg (fun r hr => (h r (mem_groupOn.mp hr).1).1)) _,
      kdOf_eq_ite (sumBy_nonneg (fun r hr => (h r (mem_groupOn.mp hr).1).2)) _⟩
  · intro rows h a ha
    by_cases hrows : rows = []
    · simp [df_overview_equipe, hrows] at ha
    · simp only [df_overview_equipe, if_neg hrows, List.mem_singleton] at ha
      subst ha
      exact ⟨rfl, rfl, rfl, rfl,
        winPctOf_eq_ite (sumBy_nonneg (fun r hr => (h r hr).1)) _,
        kdOf_eq_ite (sumBy_nonneg (fun r hr => (h r hr).2)) _⟩

/-- Witness for C5: the §8 scenario — two participants reporting
("Ash", attacker) with 40/20 and 60/45 — aggregates to 100 matches, 65 wins
and a recomputed `winPct` of 65. -/
theorem C5_ratios_recomputed_from_sums_witness :
    (opAggRowOf ashRows ("Ash", "attacker")).winPct =
      (if (opAggRowOf ashRows ("Ash", "attacker")).matchesPlayed = 0 then 0
       else (opAggRowOf ashRows ("Ash", "attacker")).matchesWon /
         (opAggRowOf ashRows ("Ash", "attacker")).matchesPlayed * 100) ∧
    (opAggRowOf ashRows ("Ash", "attacker")).matchesPlayed = 100 ∧
    (opAggRowOf ashRows ("Ash", "attacker")).matchesWon = 65 ∧
    (opAggRowOf ashRows ("Ash", "attacker")).winPct = 65 := by
  have hp : (opAggRowOf ashRows ("Ash", "attacker")).matchesPlayed = 100 := by
    have e : (opAggRowOf ashRows ("Ash", "attacker")).matchesPlayed
        = (40 : ℚ) + (60 + 0) := rfl
    rw [e]
    norm_num
  have hw : (opAggRowOf ashRows ("Ash", "attacker")).matchesWon = 65 := by
    have e : (opAggRowOf ashRows ("Ash", "attacker")).matchesWon
        = (20 : ℚ) + (45 + 0) := rfl
    rw [e]
    norm_num
  have hform := (C5_ratios_recomputed_from_sums.2.1 ashRows
    (by
      intro r hr
      have e : ashRows = [opRowOf ashEntry1 "A", opRowOf ashEntry2 "B"] := rfl
      rw [e] at hr
      rcases List.mem_cons.mp hr with rfl | hr2
      · constructor
        · have e2 : (opRowOf ashEntry1 "A").matchesPlayed = (40 : ℚ) := rfl
          rw [e2]; norm_num
        · have e2 : (opRowOf ashEntry1 "A").deaths = (0 : ℚ) := rfl
          rw [e2]
      · rcases List.mem_cons.mp hr2 with rfl | hr3
        · constructor
          · have e2 : (opRowOf ashEntry2 "B").matchesPlayed = (60 : ℚ) := rfl
            rw [e2]; norm_num
          · have e2 : (opRowOf ashEntry2 "B").deaths = (0 : ℚ) := rfl
            rw [e2]
        · simp at hr3)
    (opAggRowOf ashRows ("Ash", "attacker"))
    (List.mem_singleton.mpr rfl)).2.2.2.2.1
  refine ⟨hform, hp, hw, ?_⟩
  rw [hform, if_neg (by rw [hp]; norm_num), hp, hw]
  norm_num

/-- C6: the best/worst-maps function returns, in both components, exactly the
rows meeting the threshold (as multisets); the first component is ordered
with `winPct` non-increasing and the second non-decreasing; when no row meets
the threshold both components are empty. -/
theorem C6_best_worst_maps_spec :
    ∀ (rows : List MapAggRow) (m : ℚ),
      (compute_best_worst_maps rows m).1.Perm
        (rows.filter (fun r => decide (m ≤ r.matchesPlayed))) ∧
      (compute_best_worst_maps rows m).2.Perm
        (rows.filter (fun r => decide (m ≤ r.matchesPlayed))) ∧
      (compute_best_worst_maps rows m).1.Pairwise (fun a b => b.winPct ≤ a.winPct) ∧
      (compute_best_worst_maps rows m).2.Pairwise (fun a b => a.winPct ≤ b.winPct) ∧
      (rows.filter (fun r => decide (m ≤ r.matchesPlayed)) = [] →
        (compute_best_worst_maps rows m).1 = [] ∧
        (compute_best_worst_maps rows m).2 = []) := by
  intro rows m
  by_cases hdf : rows.filter (fun r => decide (m ≤ r.matchesPlayed)) = []
  · simp [compute_best_worst_maps, hdf]
  · simp only [compute_best_worst_maps, if_neg hdf]
    exact ⟨sortDescBy_perm _ _, sortAscBy_perm _ _,
      sortDescBy_pairwise _ _, sortAscBy_pairwise _ _,
      fun h => absurd h hdf⟩

/-- Witness for C6 at a concrete two-row table with a threshold no row
meets. -/
theorem C6_best_worst_maps_spec_witness :
    (compute_best_worst_maps [mapAggRowOregon, mapAggRowBank] 1000).1 = [] ∧
    (compute_best_worst_maps [mapAggRowOregon, mapAggRowBank] 1000).2 = [] :=
  (C6_best_worst_maps_spec [mapAggRowOregon, mapAggRowBank] 1000).2.2.2.2
    (by
      have e1 : decide ((1000 : ℚ) ≤ mapAggRowOregon.matchesPlayed) = false := by
        have : mapAggRowOregon.matchesPlayed = (40 : ℚ) := rfl
        rw [this]
        norm_num
      have e2 : decide ((1000 : ℚ) ≤ mapAggRowBank.matchesPlayed) = false := by
        have : mapAggRowBank.matchesPlayed = (20 : ℚ) := rfl
        rw [this]
        norm_num
      simp [List.filter, e1, e2])

/-- C7: `killsPerMatch` is NA (not 0) exactly when `matchesPlayed = 0` and is
`kills / matchesPlayed` otherwise, on both operator aggregates and on the
rows ranked by `killsPerMatch`; `kdRatio`, in contrast, is 0 when
`deaths = 0`. -/
theorem C7_killsPerMatch_policy :
    (∀ rows : List OpRow, ∀ a ∈ ops_df_agg_team rows,
        a.killsPerMatch = (if a.matchesPlayed = 0 then none
          else some (a.kills / a.matchesPlayed)) ∧
        (a.matchesPlayed = 0 → ¬ a.killsPerMatch = some 0) ∧
        (a.deaths = 0 → a.kdRatio = 0)) ∧
    (∀ rows : List OpRow, ∀ a ∈ ops_df_agg_player rows,
        a.killsPerMatch = (if a.matchesPlayed = 0 then none
          else some (a.kills / a.matchesPlayed)) ∧
        (a.matchesPlayed = 0 → ¬ a.killsPerMatch = some 0) ∧
        (a.deaths = 0 → a.kdRatio = 0)) ∧
    (∀ (rows : List OpPlayerAggRow) (m : ℚ) (n : Nat),
        ∀ r ∈ (compute_most_played_operators rows m n).2.2,
          r.killsPerMatch = (if r.matchesPlayed = 0 then none
            else some (r.kills / r.matchesPlayed))) := by
  refine ⟨?_, ?_, ?_⟩
  · intro rows a ha
    rcases List.mem_map.mp ha with ⟨k, _, rfl⟩
    exact ⟨(kpmOf_policy _ _).1, (kpmOf_policy _ _).2,
      fun h => kdOf_of_deaths_zero h⟩
  · intro rows a ha
    rcases List.mem_map.mp ha with ⟨k, _, rfl⟩
    exact ⟨(kpmOf_policy _ _).1, (kpmOf_policy _ _).2,
      fun h => kdOf_of_deaths_zero h⟩
  · intro rows m n r hr
    by_cases hdf : rows.filter (fun r => decide (m ≤ r.matchesPlayed)) = []
    · simp [compute_most_played_operators, hdf] at hr
    · simp only [compute_most_played_operators, if_neg hdf] at hr
      have hr2 := List.take_subset n _ hr
      have hr3 := (List.mergeSort_perm _ _).mem_iff.mp hr2
      rcases List.mem_map.mp hr3 with ⟨r0, _, rfl⟩
      exact (kpmOf_policy _ _).1

/-- Witness for C7: a zero-count group yields `killsPerMatch = NA ≠ some 0`. -/
theorem C7_killsPerMatch_policy_witness :
    ¬ (opAggRowOf [opRowZero] ("Smoke", "defender")).killsPerMatch = some 0 :=
  ((C7_killsPerMatch_policy.1 [opRowZero]
    (opAggRowOf [opRowZero] ("Smoke", "defender"))
    (List.mem_singleton.mpr rfl)).2.1
    (by
      have e : (opAggRowOf [opRowZero] ("Smoke", "defender")).matchesPlayed
          = (0 : ℚ) + 0 := rfl
      rw [e]
      norm_num))

/-- C9: grouping-and-summing preserves the totals: for each of the four count
columns, the column total over the map aggregate (resp. the team operator
aggregate) equals the total over the concatenated input rows. -/
theorem C9_aggregation_preserves_totals :
    ∀ (mrows : List MapRow) (orows : List OpRow),
      sumBy MapAggRow.matchesPlayed (maps_df_agg mrows) = sumBy MapRow.matchesPlayed mrows ∧
      sumBy MapAggRow.matchesWon (maps_df_agg mrows) = sumBy MapRow.matchesWon mrows ∧
      sumBy MapAggRow.kills (maps_df_agg mrows) = sumBy MapRow.kills mrows ∧
      sumBy MapAggRow.deaths (maps_df_agg mrows) = sumBy MapRow.deaths mrows ∧
      sumBy OpAggRow.matchesPlayed (ops_df_agg_team orows) = sumBy OpRow.matchesPlayed orows ∧
      sumBy OpAggRow.matchesWon (ops_df_agg_team orows) = sumBy OpRow.matchesWon orows ∧
      sumBy OpAggRow.kills (ops_df_agg_team orows) = sumBy OpRow.kills orows ∧
      sumBy OpAggRow.deaths (ops_df_agg_team orows) = sumBy OpRow.deaths orows := by
  intro mrows orows
  refine ⟨?_, ?_, ?_, ?_, ?_, ?_, ?_, ?_⟩
  · have h := sum_map_keysOf MapRow.mapName MapRow.matchesPlayed mrows
    simp only [maps_df_agg, sumBy, List.map_map] at *
    exact h
  · have h := sum_map_keysOf MapRow.mapName MapRow.matchesWon mrows
    simp only [maps_df_agg, sumBy, List.map_map] at *
    exact h
  · have h := sum_map_keysOf MapRow.mapName MapRow.kills mrows
    simp only [maps_df_agg, sumBy, List.map_map] at *
    exact h
  · have h := sum_map_keysOf MapRow.mapName MapRow.deaths mrows
    simp only [maps_df_agg, sumBy, List.map_map] at *
    exact h
  · have h := sum_map_keysOf opTeamKey OpRow.matchesPlayed orows
    simp only [ops_df_agg_team, sumBy, List.map_map] at *
    exact h
  · have h := sum_map_keysOf opTeamKey OpRow.matchesWon orows
    simp only [ops_df_agg_team, sumBy, List.map_map] at *
    exact h
  · have h := sum_map_keysOf opTeamKey OpRow.kills orows
    simp only [ops_df_agg_team, sumBy, List.map_map] at *
    exact h
  · have h := sum_map_keysOf opTeamKey OpRow.deaths orows
    simp only [ops_df_agg_team, sumBy, List.map_map] at *
    exact h

/-- C10: the two tables returned by the best/worst-maps function hold the
same multiset of rows — each is a permutation of the other. -/
theorem C10_best_worst_same_multiset :
    ∀ (rows : List MapAggRow) (m : ℚ),
      (compute_best_worst_maps rows m).1.Perm (compute_best_worst_maps rows m).2 := by
  intro rows m
  by_cases hdf : rows.filter (fun r => decide (m ≤ r.matchesPlayed)) = []
  · simp [compute_best_worst_maps, hdf]
  · simp only [compute_best_worst_maps, if_neg hdf]
    exact (sortDescBy_perm _ _).trans (sortAscBy_perm _ _).symm

end R6
